import Mathlib

/-!
Verification development for the airlabs-recolector repository.

The repository contains two revisions of the same ingestion pipeline:
`src/main.py` (FastAPI revision, 16-column tables) and `src/app.py`
(Flask revision, 9-column tables).  Both are embedded here.  Definitions
named after `main.py` carry the plain Python names (`save_arrivals`,
`calculate_delay`, `airlabs_request`, `recolectar`); the `app.py`
revision's functions are prefixed with `app`.
-/

namespace Airlabs

/-- A parsed naive-or-aware date-time, modelling a Python `datetime` as
produced by `dateutil.parser.parse`.  `tzoffset` is the UTC offset in
seconds when the input carried one (`tzinfo` present), `none` otherwise. -/
structure PyDateTime where
  year : Nat
  month : Nat
  day : Nat
  hour : Nat
  minute : Nat
  second : Nat
  tzoffset : Option Int
  deriving DecidableEq, Repr

/-- Numeric value of a decimal digit character. -/
def digitVal (c : Char) : Nat := c.toNat - 48

/-- Read exactly two decimal digits. -/
def read2 : List Char → Option (Nat × List Char)
  | a :: b :: rest =>
    if a.isDigit && b.isDigit then some (digitVal a * 10 + digitVal b, rest) else none
  | _ => none

/-- Read exactly four decimal digits. -/
def read4 : List Char → Option (Nat × List Char)
  | a :: b :: c :: d :: rest =>
    if a.isDigit && b.isDigit && c.isDigit && d.isDigit then
      some (((digitVal a * 10 + digitVal b) * 10 + digitVal c) * 10 + digitVal d, rest)
    else none
  | _ => none

/-- Gregorian leap-year test, as used by Python `datetime` validation. -/
def isLeapYear (y : Nat) : Bool :=
  (y % 4 == 0 && y % 100 != 0) || y % 400 == 0

/-- Number of days in a month, as used by Python `datetime` validation. -/
def daysInMonth (y m : Nat) : Nat :=
  if m = 2 then (if isLeapYear y then 29 else 28)
  else if m = 4 ∨ m = 6 ∨ m = 9 ∨ m = 11 then 30
  else 31

/-- Optional `:SS` seconds component of a time. -/
def parseSeconds : List Char → Option (Nat × List Char)
  | ':' :: r =>
    (match read2 r with
     | some (s, r2) => some (s, r2)
     | none => none)
  | cs => some (0, cs)

/-- Optional trailing UTC-offset marker: nothing, `Z`, or a signed
`±HH:MM` / `±HHMM` / `±HH` offset, yielding the offset in seconds. -/
def parseOffsetTail : List Char → Option (Option Int)
  | [] => some none
  | ['Z'] => some (some 0)
  | c :: r =>
    if c = '+' ∨ c = '-' then
      match read2 r with
      | none => none
      | some (oh, r1) =>
        let sgn : Int := if c = '+' then 1 else -1
        let finish : Nat → List Char → Option (Option Int) := fun om r2 =>
          if r2 = [] ∧ oh ≤ 23 ∧ om ≤ 59 then
            some (some (sgn * ((oh * 3600 + om * 60 : Nat) : Int)))
          else none
        match r1 with
        | ':' :: r2 =>
          (match read2 r2 with
           | some (om, r3) => finish om r3
           | none => none)
        | [] => finish 0 []
        | _ =>
          (match read2 r1 with
           | some (om, r3) => finish om r3
           | none => none)
    else none

/-- Optional time-of-day part following the date: empty (midnight), or a
`T`/space separator followed by `HH:MM`, optional seconds and offset. -/
def parseTimePart (y m d : Nat) : List Char → Option PyDateTime
  | [] => some ⟨y, m, d, 0, 0, 0, none⟩
  | c :: rest =>
    if c = 'T' ∨ c = ' ' then
      match read2 rest with
      | none => none
      | some (hh, r1) =>
        match r1 with
        | ':' :: r2 =>
          (match read2 r2 with
           | none => none
           | some (mi, r3) =>
             match parseSeconds r3 with
             | none => none
             | some (ss, r4) =>
               match parseOffsetTail r4 with
               | none => none
               | some off =>
                 if hh ≤ 23 ∧ mi ≤ 59 ∧ ss ≤ 59 then
                   some ⟨y, m, d, hh, mi, ss, off⟩
                 else none)
        | _ => none
    else none

/-- Modelled from the external library dependency: `dateutil.parser.parse`
restricted to the ISO-8601 style date-time strings the upstream API and the
spec use (`YYYY-MM-DD`, optionally followed by `T` or a space and
`HH:MM[:SS]`, optionally followed by `Z` or a numeric UTC offset).
Returns `none` where the Python call would raise a parse error. -/
def parseDateTime (str : String) : Option PyDateTime :=
  match read4 str.toList with
  | none => none
  | some (y, r1) =>
    match r1 with
    | '-' :: r2 =>
      (match read2 r2 with
       | none => none
       | some (m, r3) =>
         match r3 with
         | '-' :: r4 =>
           (match read2 r4 with
            | none => none
            | some (d, r5) =>
              if 1 ≤ y ∧ 1 ≤ m ∧ m ≤ 12 ∧ 1 ≤ d ∧ d ≤ daysInMonth y m then
                parseTimePart y m d r5
              else none)
         | _ => none)
    | _ => none

/-- Days from 0000-03-01 to the given civil date (Gregorian), via the
standard era/year-of-era decomposition; used only to linearize dates so
that differences of `naiveSeconds` are exact second differences. -/
def daysFromCivil (y m d : Nat) : Nat :=
  let y2 := if m ≤ 2 then y - 1 else y
  let era := y2 / 400
  let yoe := y2 % 400
  let mp := (m + 9) % 12
  let doy := (153 * mp + 2) / 5 + (d - 1)
  let doe := yoe * 365 + yoe / 4 - yoe / 100 + doy
  era * 146097 + doe

/-- Seconds on the naive clock (timezone offset deliberately ignored),
modelling arithmetic on a Python `datetime` with `tzinfo=None`. -/
def naiveSeconds (dt : PyDateTime) : Int :=
  ((daysFromCivil dt.year dt.month dt.day * 86400
    + dt.hour * 3600 + dt.minute * 60 + dt.second : Nat) : Int)

/-- Python `dt.replace(tzinfo=None)`. -/
def replaceTzNone (dt : PyDateTime) : PyDateTime :=
  { dt with tzoffset := none }

/-- Python truthiness of an optional string: `None` and the empty string
are falsy. -/
def truthyStr : Option String → Bool
  | none => false
  | some s => !(s == "")

/-- Embeds `calculate_delay` (identical in `src/main.py` and
`src/app.py`): minutes between the actual and the scheduled/estimated
time, `None` when either input is falsy or fails to parse.  Python
computes `int(delay_seconds / 60)`, i.e. truncation toward zero, embedded
as `Int.tdiv`. -/
def calculate_delay (actual_time_str scheduled_time_str : Option String) : Option Int :=
  if truthyStr actual_time_str = false || truthyStr scheduled_time_str = false then none
  else
    match parseDateTime (actual_time_str.getD ""), parseDateTime (scheduled_time_str.getD "") with
    | some actual_dt, some scheduled_dt =>
      some (Int.tdiv
        (naiveSeconds (replaceTzNone actual_dt) - naiveSeconds (replaceTzNone scheduled_dt)) 60)
    | _, _ => none

/-- A raw flight record from the upstream API, restricted to the fields
the two revisions read via `r.get(...)`.  `none` models an absent key or
a JSON null; `some ""` models a present-but-empty string (falsy in
Python). -/
structure RawRecord where
  flight_iata : Option String := none
  airline_iata : Option String := none
  dep_iata : Option String := none
  arr_iata : Option String := none
  status : Option String := none
  arr_time : Option String := none
  arr_time_sch : Option String := none
  arr_estimated : Option String := none
  dep_time : Option String := none
  dep_time_sch : Option String := none
  dep_estimated : Option String := none
  arr_terminal : Option String := none
  arr_gate : Option String := none
  arr_baggage : Option String := none
  dep_terminal : Option String := none
  dep_gate : Option String := none
  duration : Option Int := none
  dep_delayed : Option Int := none
  arr_delayed : Option Int := none
  aircraft_icao : Option String := none
  deriving DecidableEq, Repr

/-- A row of the `arrivals` table of `src/main.py` (16 columns, primary
key `(flight_iata, arr_time)`; both key fields are checked truthy before
insertion, hence plain `String`). -/
structure ArrivalRow where
  timestamp : String
  flight_iata : String
  airline_iata : Option String
  dep_iata : Option String
  arr_iata : Option String
  arr_sch_time : Option String
  arr_time : String
  status : Option String
  delay_minutes : Option Int
  arr_terminal : Option String
  arr_gate : Option String
  arr_baggage : Option String
  duration : Option Int
  dep_delayed : Option Int
  arr_delayed : Option Int
  aircraft_icao : Option String
  deriving DecidableEq, Repr

/-- A row of the `departures` table of `src/main.py` (15 columns, primary
key `(flight_iata, dep_sch_time)`; the actual departure time may be
absent). -/
structure DepartureRow where
  timestamp : String
  flight_iata : String
  airline_iata : Option String
  dep_iata : Option String
  arr_iata : Option String
  dep_sch_time : String
  dep_time : Option String
  status : Option String
  delay_minutes : Option Int
  dep_terminal : Option String
  dep_gate : Option String
  duration : Option Int
  dep_delayed : Option Int
  arr_delayed : Option Int
  aircraft_icao : Option String
  deriving DecidableEq, Repr

/-- A row of the `arrivals` table of `src/app.py` (9 columns, primary key
`(flight_iata, arr_time)`). -/
structure AppArrivalRow where
  timestamp : String
  flight_iata : String
  airline_iata : Option String
  dep_iata : Option String
  arr_iata : Option String
  arr_sch_time : Option String
  arr_time : String
  status : Option String
  delay_minutes : Option Int
  deriving DecidableEq, Repr

/-- A row of the `departures` table of `src/app.py` (9 columns, primary
key `(flight_iata, dep_time)`; here the scheduled side may be absent and
the actual departure time is mandatory). -/
structure AppDepartureRow where
  timestamp : String
  flight_iata : String
  airline_iata : Option String
  dep_iata : Option String
  arr_iata : Option String
  dep_sch_time : Option String
  dep_time : String
  status : Option String
  delay_minutes : Option Int
  deriving DecidableEq, Repr

/-- The two tables of `barajas.db` as written by `src/main.py`.  Each
table is the list of its rows in insertion order. -/
structure MainDB where
  arrivals : List ArrivalRow
  departures : List DepartureRow
  deriving DecidableEq, Repr

/-- The two tables of `barajas.db` as written by `src/app.py`. -/
structure AppDB where
  arrivals : List AppArrivalRow
  departures : List AppDepartureRow
  deriving DecidableEq, Repr

section GenericUpsert

variable {ρ α : Type}

/-- Whether some row of the table has the given natural key. -/
def hasKey (key : α → String × String) (t : List α) (k : String × String) : Bool :=
  t.any fun e => decide (key e = k)

/-- SQLite `INSERT OR IGNORE` on a table with the given natural key:
append the row unless a row with the same key already exists. -/
def insertOrIgnore (key : α → String × String) (t : List α) (row : α) : List α :=
  if hasKey key t (key row) then t else t ++ [row]

/-- One iteration of the per-record loop of a `save_*` function: skip the
record when the normalizer discards it, otherwise `INSERT OR IGNORE`. -/
def saveStep (norm : ρ → Option α) (key : α → String × String)
    (t : List α) (r : ρ) : List α :=
  match norm r with
  | none => t
  | some row => insertOrIgnore key t row

/-- The whole per-record loop of a `save_*` function. -/
def runUpsert (norm : ρ → Option α) (key : α → String × String)
    (t0 : List α) (records : List ρ) : List α :=
  records.foldl (saveStep norm key) t0

end GenericUpsert

/-- Resolved scheduled arrival time: `arr_time_sch`, falling back to
`arr_estimated` when falsy (both revisions). -/
def resolveArrSch (r : RawRecord) : Option String :=
  if truthyStr r.arr_time_sch then r.arr_time_sch else r.arr_estimated

/-- Resolved scheduled departure time: `dep_time_sch`, falling back to
`dep_estimated` when falsy (both revisions). -/
def resolveDepSch (r : RawRecord) : Option String :=
  if truthyStr r.dep_time_sch then r.dep_time_sch else r.dep_estimated

/-- The loop body of `save_arrivals` in `src/main.py` up to the insert:
`none` when the record is discarded (`continue`), otherwise the row
passed to `INSERT OR IGNORE`. -/
def normalizeArrival (now : String) (r : RawRecord) : Option ArrivalRow :=
  if truthyStr r.flight_iata && truthyStr r.arr_time then
    some
      { timestamp := now
        flight_iata := r.flight_iata.getD ""
        airline_iata := r.airline_iata
        dep_iata := r.dep_iata
        arr_iata := r.arr_iata
        arr_sch_time := resolveArrSch r
        arr_time := r.arr_time.getD ""
        status := r.status
        delay_minutes := calculate_delay r.arr_time (resolveArrSch r)
        arr_terminal := r.arr_terminal
        arr_gate := r.arr_gate
        arr_baggage := r.arr_baggage
        duration := r.duration
        dep_delayed := r.dep_delayed
        arr_delayed := r.arr_delayed
        aircraft_icao := r.aircraft_icao }
  else none

/-- The loop body of `save_departures` in `src/main.py`: the record is
discarded when the flight identifier or the resolved scheduled time is
falsy; the actual departure time may be absent. -/
def normalizeDeparture (now : String) (r : RawRecord) : Option DepartureRow :=
  if truthyStr r.flight_iata && truthyStr (resolveDepSch r) then
    some
      { timestamp := now
        flight_iata := r.flight_iata.getD ""
        airline_iata := r.airline_iata
        dep_iata := r.dep_iata
        arr_iata := r.arr_iata
        dep_sch_time := (resolveDepSch r).getD ""
        dep_time := r.dep_time
        status := r.status
        delay_minutes := calculate_delay r.dep_time (resolveDepSch r)
        dep_terminal := r.dep_terminal
        dep_gate := r.dep_gate
        duration := r.duration
        dep_delayed := r.dep_delayed
        arr_delayed := r.arr_delayed
        aircraft_icao := r.aircraft_icao }
  else none

/-- The loop body of `save_arrivals` in `src/app.py`. -/
def appNormalizeArrival (now : String) (r : RawRecord) : Option AppArrivalRow :=
  if truthyStr r.flight_iata && truthyStr r.arr_time then
    some
      { timestamp := now
        flight_iata := r.flight_iata.getD ""
        airline_iata := r.airline_iata
        dep_iata := r.dep_iata
        arr_iata := r.arr_iata
        arr_sch_time := resolveArrSch r
        arr_time := r.arr_time.getD ""
        status := r.status
        delay_minutes := calculate_delay r.arr_time (resolveArrSch r) }
  else none

/-- The loop body of `save_departures` in `src/app.py`: the record is
discarded when the flight identifier or the actual departure time is
falsy; the resolved scheduled time may be absent. -/
def appNormalizeDeparture (now : String) (r : RawRecord) : Option AppDepartureRow :=
  if truthyStr r.flight_iata && truthyStr r.dep_time then
    some
      { timestamp := now
        flight_iata := r.flight_iata.getD ""
        airline_iata := r.airline_iata
        dep_iata := r.dep_iata
        arr_iata := r.arr_iata
        dep_sch_time := resolveDepSch r
        dep_time := r.dep_time.getD ""
        status := r.status
        delay_minutes := calculate_delay r.dep_time (resolveDepSch r) }
  else none

/-- Natural key of `main.py` arrivals: `PRIMARY KEY (flight_iata, arr_time)`. -/
def arrivalKey (row : ArrivalRow) : String × String := (row.flight_iata, row.arr_time)

/-- Natural key of `main.py` departures: `PRIMARY KEY (flight_iata, dep_sch_time)`. -/
def departureKey (row : DepartureRow) : String × String := (row.flight_iata, row.dep_sch_time)

/-- Natural key of `app.py` arrivals: `PRIMARY KEY (flight_iata, arr_time)`. -/
def appArrivalKey (row : AppArrivalRow) : String × String := (row.flight_iata, row.arr_time)

/-- Natural key of `app.py` departures: `PRIMARY KEY (flight_iata, dep_time)`. -/
def appDepartureKey (row : AppDepartureRow) : String × String := (row.flight_iata, row.dep_time)

/-- Embeds `save_arrivals` of `src/main.py`.  `now` is the collection
timestamp stamped once at call entry (`datetime.now(MADRID_TZ)`); the
returned `Int` is `conn.total_changes - initial_changes`, i.e. the number
of rows the call actually inserted. -/
def save_arrivals (now : String) (records : List RawRecord) (db : MainDB) : MainDB × Int :=
  let t := runUpsert (normalizeArrival now) arrivalKey db.arrivals records
  ({ db with arrivals := t }, (t.length : Int) - (db.arrivals.length : Int))

/-- Embeds `save_departures` of `src/main.py`. -/
def save_departures (now : String) (records : List RawRecord) (db : MainDB) : MainDB × Int :=
  let t := runUpsert (normalizeDeparture now) departureKey db.departures records
  ({ db with departures := t }, (t.length : Int) - (db.departures.length : Int))

/-- Embeds `save_arrivals` of `src/app.py`, which returns a human-readable
message string embedding the inserted-row count. -/
def appSaveArrivals (now : String) (records : List RawRecord) (db : AppDB) : AppDB × String :=
  let t := runUpsert (appNormalizeArrival now) appArrivalKey db.arrivals records
  ({ db with arrivals := t },
   "Registros nuevos insertados en arrivals: "
     ++ toString ((t.length : Int) - (db.arrivals.length : Int)))

/-- Embeds `save_departures` of `src/app.py`. -/
def appSaveDepartures (now : String) (records : List RawRecord) (db : AppDB) : AppDB × String :=
  let t := runUpsert (appNormalizeDeparture now) appDepartureKey db.departures records
  ({ db with departures := t },
   "Registros nuevos insertados en departures: "
     ++ toString ((t.length : Int) - (db.departures.length : Int)))

/-- The JSON body of a well-formed (2xx) upstream response.  `error` is
the application-level error message when the body has a top-level
`error` field.  `response` distinguishes an absent `response` key
(`none`), a present-but-null value (`some none`) and a present list
(`some (some l)`). -/
structure ApiData where
  error : Option String
  response : Option (Option (List RawRecord))
  deriving DecidableEq, Repr

/-- Outcome of the HTTP round trip performed by `requests.get` plus
`raise_for_status`: either a transport-level failure (connection error,
timeout, non-2xx — everything `requests.exceptions.RequestException`
covers) or a parsed JSON body. -/
inductive HttpResult where
  | transportFail (msg : String)
  | ok (data : ApiData)
  deriving DecidableEq, Repr

/-- What a call of an `airlabs_request` revision does: return a value,
raise `RuntimeError` (caught by the orchestrator), or let an exception of
another type escape uncaught (e.g. `KeyError`). -/
inductive Outcome (β : Type) where
  | ok (val : β)
  | runtimeError (msg : String)
  | uncaught (msg : String)
  deriving DecidableEq, Repr

/-- The placeholder credential of `src/main.py`. -/
def placeholderKey : String := "TU_CLAVE_DE_AIRLABS_AQUI"

/-- The configuration-error message of `src/main.py`. -/
def apiKeyConfigError : String :=
  "API Key no configurada. Por favor, define AIRLABS_API_KEY en Render."

/-- The prefix wrapped around transport failures in both revisions. -/
def transportErrText : String := "Error en la petición HTTP: "

/-- `API_KEY` of `src/main.py`: the environment value, defaulting to the
placeholder when the variable is unset. -/
def main_API_KEY (env : Option String) : String := env.getD placeholderKey

/-- `API_KEY` of `src/app.py`: the environment value, defaulting to a
hardcoded real-looking key when the variable is unset. -/
def app_API_KEY (env : Option String) : String :=
  env.getD "90e110b8-cdc9-4e81-886d-b2dfa3112feb"

/-- Embeds `airlabs_request` of `src/main.py`.  The placeholder check
raises before the HTTP request is made; `RequestException` is wrapped in
a `RuntimeError`; an `error` field raises `RuntimeError`; otherwise the
value of `data.get("response")` is returned (Python `None` when the key
is absent or null). -/
def airlabs_request (apiKey : String) (h : HttpResult) :
    Except String (Option (List RawRecord)) :=
  if apiKey = placeholderKey then Except.error apiKeyConfigError
  else
    match h with
    | HttpResult.transportFail m => Except.error (transportErrText ++ m)
    | HttpResult.ok data =>
      match data.error with
      | some e => Except.error ("Error de API: " ++ e)
      | none =>
        match data.response with
        | none => Except.ok none
        | some v => Except.ok v

/-- Embeds `airlabs_request` of `src/app.py`: no credential check, and the
response is extracted with `data["response"]`, so an absent key raises an
uncaught `KeyError`. -/
def appAirlabsRequest (_apiKey : String) (h : HttpResult) :
    Outcome (Option (List RawRecord)) :=
  match h with
  | HttpResult.transportFail m => Outcome.runtimeError (transportErrText ++ m)
  | HttpResult.ok data =>
    match data.error with
    | some e => Outcome.runtimeError ("Error de API: " ++ e)
    | none =>
      match data.response with
      | none => Outcome.uncaught "KeyError: response"
      | some v => Outcome.ok v

/-- The JSON report assembled by the `/recolectar` endpoint of
`src/main.py`.  `none` models a key absent from the `results` dict. -/
structure Report where
  nuevos_registros_llegadas : Option Int
  error_llegadas : Option String
  nuevos_registros_salidas_activas : Option Int
  error_salidas_activas : Option String
  mensaje : String
  status_code : Nat
  deriving DecidableEq, Repr

/-- Embeds the `/recolectar` endpoint of `src/main.py`.  `hL` and `hA`
are the HTTP outcomes of the `landed` and `active` fetches; `now1` and
`now2` are the collection timestamps of the two save calls.  Each
filter's fetch and save runs in its own `try` that catches only
`RuntimeError`. -/
def recolectar (apiKey now1 now2 : String) (hL hA : HttpResult) (db : MainDB) :
    Report × MainDB :=
  let step1 : Option Int × Option String × MainDB × Int :=
    match airlabs_request apiKey hL with
    | Except.error e =>
      (none, some ("Error en recolección de llegadas: " ++ e), db, 0)
    | Except.ok resp =>
      match resp with
      | none => (some 0, none, db, 0)
      | some l =>
        if l.isEmpty then (some 0, none, db, 0)
        else
          let p := save_arrivals now1 l db
          (some p.2, none, p.1, p.2)
  match step1 with
  | (llCnt, llErr, db1, t1) =>
    let step2 : Option Int × Option String × MainDB × Int :=
      match airlabs_request apiKey hA with
      | Except.error e =>
        (none, some ("Error en recolección de salidas activas: " ++ e), db1, 0)
      | Except.ok resp =>
        match resp with
        | none => (some 0, none, db1, 0)
        | some l =>
          if l.isEmpty then (some 0, none, db1, 0)
          else
            let p := save_departures now2 l db1
            (some p.2, none, p.1, p.2)
    match step2 with
    | (saCnt, saErr, db2, t2) =>
      let total := t1 + t2
      let final : String × Nat :=
        if 0 < total then
          ("Recolección completada con éxito. Total de nuevos registros: "
             ++ toString total ++ ".", 200)
        else
          ("Recolección completada. No se insertaron registros nuevos.",
           if llErr.isSome || saErr.isSome then 500 else 200)
      ({ nuevos_registros_llegadas := llCnt
         error_llegadas := llErr
         nuevos_registros_salidas_activas := saCnt
         error_salidas_activas := saErr
         mensaje := final.1
         status_code := final.2 }, db2)

/-- The consolidated response message assembled by `recolectar_data` in
`src/app.py` from the two per-filter result strings. -/
def appResponseMsg (resArrivals resDepartures : String) : String :=
  "Tarea de recolección completada: LLEGADAS: " ++ resArrivals
    ++ ". DESPEGUES: " ++ resDepartures ++ "."

/-- The departures half of `recolectar_data` in `src/app.py` followed by
the consolidated response, given the arrivals half's result string and
store.  Only `RuntimeError` is caught; any other exception escapes as an
`uncaught` outcome of the whole cycle. -/
def appRecolectarTail (resArrivals apiKey now2 : String) (hD : HttpResult) (adb : AppDB) :
    Outcome (String × Nat) × AppDB :=
  match appAirlabsRequest apiKey hD with
  | Outcome.uncaught m => (Outcome.uncaught m, adb)
  | Outcome.runtimeError e =>
    (Outcome.ok (appResponseMsg resArrivals ("ERROR DESPEGUES: " ++ e), 200), adb)
  | Outcome.ok resp =>
    match resp with
    | none => (Outcome.ok (appResponseMsg resArrivals "Lista de despegues vacía.", 200), adb)
    | some l =>
      if l.isEmpty then
        (Outcome.ok (appResponseMsg resArrivals "Lista de despegues vacía.", 200), adb)
      else
        let p := appSaveDepartures now2 l adb
        (Outcome.ok (appResponseMsg resArrivals p.2, 200), p.1)

/-- Embeds the `/recolectar` endpoint of `src/app.py`
(`recolectar_data`).  `hL` and `hD` are the HTTP outcomes of the
`landed` and `departed` fetches.  Each filter's fetch and save runs in a
`try` that catches only `RuntimeError`, turning the failure into that
filter's result string; the per-filter strings are then combined into
one consolidated message returned with HTTP status 200.  An exception of
another type (e.g. the `KeyError` of an absent `response` field) escapes
the handlers and aborts the cycle, modelled by an `uncaught` outcome. -/
def appRecolectarData (apiKey now1 now2 : String) (hL hD : HttpResult) (adb : AppDB) :
    Outcome (String × Nat) × AppDB :=
  match appAirlabsRequest apiKey hL with
  | Outcome.uncaught m => (Outcome.uncaught m, adb)
  | Outcome.runtimeError e =>
    appRecolectarTail ("ERROR LLEGADAS: " ++ e) apiKey now2 hD adb
  | Outcome.ok resp =>
    match resp with
    | none => appRecolectarTail "Lista de llegadas vacía." apiKey now2 hD adb
    | some l =>
      if l.isEmpty then appRecolectarTail "Lista de llegadas vacía." apiKey now2 hD adb
      else
        let p := appSaveArrivals now1 l adb
        appRecolectarTail p.2 apiKey now2 hD p.1

section UpsertLemmas

variable {ρ α : Type}

/-- One save step either keeps the table or appends the new row. -/
theorem saveStep_append (norm : ρ → Option α) (key : α → String × String)
    (t : List α) (r : ρ) : ∃ new, saveStep norm key t r = t ++ new := by
  unfold saveStep insertOrIgnore
  cases hn : norm r
  · exact ⟨[], by simp⟩
  case some row =>
    cases hk : hasKey key t (key row)
    · exact ⟨[row], by simp [hk]⟩
    · exact ⟨[], by simp [hk]⟩

/-- A save step grows the table by at most one row. -/
theorem saveStep_length (norm : ρ → Option α) (key : α → String × String)
    (t : List α) (r : ρ) : (saveStep norm key t r).length ≤ t.length + 1 := by
  unfold saveStep insertOrIgnore
  cases hn : norm r
  · simp
  case some row =>
    cases hk : hasKey key t (key row) <;> simp [hk]

/-- The save loop only appends rows to the table it started from. -/
theorem runUpsert_append (norm : ρ → Option α) (key : α → String × String)
    (records : List ρ) :
    ∀ t0, ∃ new, runUpsert norm key t0 records = t0 ++ new := by
  induction records with
  | nil => intro t0; exact ⟨[], by simp [runUpsert]⟩
  | cons r rs ih =>
    intro t0
    obtain ⟨n1, h1⟩ := saveStep_append norm key t0 r
    obtain ⟨n2, h2⟩ := ih (saveStep norm key t0 r)
    refine ⟨n1 ++ n2, ?_⟩
    show runUpsert norm key (saveStep norm key t0 r) rs = t0 ++ (n1 ++ n2)
    rw [h2, h1, List.append_assoc]

/-- A key present in the table stays present after appending rows. -/
theorem hasKey_append (key : α → String × String) (t new : List α)
    (k : String × String) (h : hasKey key t k = true) :
    hasKey key (t ++ new) k = true := by
  unfold hasKey at h ⊢
  rw [List.any_append, h]
  rfl

/-- After `insertOrIgnore`, the inserted row's key is present. -/
theorem hasKey_insertOrIgnore (key : α → String × String) (t : List α) (row : α) :
    hasKey key (insertOrIgnore key t row) (key row) = true := by
  unfold insertOrIgnore
  cases hk : hasKey key t (key row)
  · simp only [Bool.false_eq_true, if_false]
    unfold hasKey
    rw [List.any_append]
    simp [hasKey] at hk ⊢
  · simp [hk]

/-- Every record the normalizer keeps has its key present in the table
produced by the save loop. -/
theorem runUpsert_covers (norm : ρ → Option α) (key : α → String × String)
    (records : List ρ) :
    ∀ t0 r row, r ∈ records → norm r = some row →
      hasKey key (runUpsert norm key t0 records) (key row) = true := by
  induction records with
  | nil => intro _ _ _ h; cases h
  | cons a rs ih =>
    intro t0 r row hmem hn
    rcases List.mem_cons.mp hmem with heq | hmem2
    · subst heq
      have h1 : hasKey key (saveStep norm key t0 r) (key row) = true := by
        unfold saveStep
        rw [hn]
        exact hasKey_insertOrIgnore key t0 row
      obtain ⟨new, hnew⟩ := runUpsert_append norm key rs (saveStep norm key t0 r)
      show hasKey key (runUpsert norm key (saveStep norm key t0 r) rs) (key row) = true
      rw [hnew]
      exact hasKey_append key _ new _ h1
    · exact ih (saveStep norm key t0 a) r row hmem2 hn

/-- If every record the normalizer keeps already has its key in the
table, the save loop leaves the table unchanged. -/
theorem runUpsert_noop (norm : ρ → Option α) (key : α → String × String)
    (records : List ρ) :
    ∀ t, (∀ r ∈ records, ∀ row, norm r = some row → hasKey key t (key row) = true) →
      runUpsert norm key t records = t := by
  induction records with
  | nil => intro t _; rfl
  | cons a rs ih =>
    intro t h
    have hstep : saveStep norm key t a = t := by
      unfold saveStep
      cases hn : norm a
      · rfl
      case some row =>
        have hk := h a (List.mem_cons_self a rs) row hn
        simp [insertOrIgnore, hk]
    show runUpsert norm key (saveStep norm key t a) rs = t
    rw [hstep]
    exact ih t fun r hr row hn => h r (List.mem_cons_of_mem a hr) row hn

/-- Re-running the save loop with a normalizer that keeps the same
records with the same keys (e.g. the same normalizer at a different
collection timestamp) is a no-op. -/
theorem runUpsert_idem (norm1 norm2 : ρ → Option α) (key : α → String × String)
    (H : ∀ r row2, norm2 r = some row2 →
      ∃ row1, norm1 r = some row1 ∧ key row1 = key row2)
    (t0 : List α) (records : List ρ) :
    runUpsert norm2 key (runUpsert norm1 key t0 records) records =
      runUpsert norm1 key t0 records := by
  apply runUpsert_noop
  intro r hr row2 hn2
  obtain ⟨row1, hn1, hkey⟩ := H r row2 hn2
  rw [← hkey]
  exact runUpsert_covers norm1 key records t0 r row1 hr hn1

/-- The save loop inserts at most one row per input record. -/
theorem runUpsert_length (norm : ρ → Option α) (key : α → String × String)
    (records : List ρ) :
    ∀ t0, (runUpsert norm key t0 records).length ≤ t0.length + records.length := by
  induction records with
  | nil => intro t0; simp [runUpsert]
  | cons a rs ih =>
    intro t0
    have h1 := ih (saveStep norm key t0 a)
    have h2 := saveStep_length norm key t0 a
    show (runUpsert norm key (saveStep norm key t0 a) rs).length ≤ _
    simp only [List.length_cons]
    omega

/-- A save step on a discarded record does nothing. -/
theorem saveStep_none (norm : ρ → Option α) (key : α → String × String)
    (t : List α) (r : ρ) (hn : norm r = none) : saveStep norm key t r = t := by
  unfold saveStep
  rw [hn]

/-- Removing a discarded record from the batch does not change the save
loop's result. -/
theorem runUpsert_skip (norm : ρ → Option α) (key : α → String × String)
    (r : ρ) (hn : norm r = none) (l1 l2 : List ρ) (t0 : List α) :
    runUpsert norm key t0 (l1 ++ r :: l2) = runUpsert norm key t0 (l1 ++ l2) := by
  unfold runUpsert
  rw [List.foldl_append, List.foldl_append]
  show List.foldl _ (saveStep norm key (List.foldl _ t0 l1) r) l2 = _
  rw [saveStep_none norm key _ r hn]

end UpsertLemmas

/-- The save loop appends exactly the rows counted by the length delta,
never more rows than input records. -/
theorem runUpsert_count {ρ α : Type} (norm : ρ → Option α) (key : α → String × String)
    (t0 : List α) (records : List ρ) :
    ∃ new, runUpsert norm key t0 records = t0 ++ new ∧
      ((runUpsert norm key t0 records).length : Int) - (t0.length : Int) =
        (new.length : Int) ∧
      new.length ≤ records.length := by
  obtain ⟨new, h⟩ := runUpsert_append norm key records t0
  have hlen := runUpsert_length norm key records t0
  rw [h] at hlen ⊢
  rw [List.length_append] at hlen ⊢
  refine ⟨new, rfl, ?_, ?_⟩
  · push_cast
    omega
  · omega

/-- The key of a kept arrival row does not depend on the collection
timestamp: re-normalizing at another timestamp keeps the record with the
same natural key. -/
theorem normalizeArrival_stable (now now2 : String) (r : RawRecord) (row2 : ArrivalRow)
    (h : normalizeArrival now2 r = some row2) :
    ∃ row1, normalizeArrival now r = some row1 ∧ arrivalKey row1 = arrivalKey row2 := by
  unfold normalizeArrival at h ⊢
  by_cases hg : (truthyStr r.flight_iata && truthyStr r.arr_time) = true
  · rw [if_pos hg] at h ⊢
    cases h
    exact ⟨_, rfl, rfl⟩
  · rw [if_neg hg] at h
    cases h

/-- Timestamp-stability for `main.py` departure rows. -/
theorem normalizeDeparture_stable (now now2 : String) (r : RawRecord) (row2 : DepartureRow)
    (h : normalizeDeparture now2 r = some row2) :
    ∃ row1, normalizeDeparture now r = some row1 ∧ departureKey row1 = departureKey row2 := by
  unfold normalizeDeparture at h ⊢
  by_cases hg : (truthyStr r.flight_iata && truthyStr (resolveDepSch r)) = true
  · rw [if_pos hg] at h ⊢
    cases h
    exact ⟨_, rfl, rfl⟩
  · rw [if_neg hg] at h
    cases h

/-- Timestamp-stability for `app.py` arrival rows. -/
theorem appNormalizeArrival_stable (now now2 : String) (r : RawRecord) (row2 : AppArrivalRow)
    (h : appNormalizeArrival now2 r = some row2) :
    ∃ row1, appNormalizeArrival now r = some row1 ∧ appArrivalKey row1 = appArrivalKey row2 := by
  unfold appNormalizeArrival at h ⊢
  by_cases hg : (truthyStr r.flight_iata && truthyStr r.arr_time) = true
  · rw [if_pos hg] at h ⊢
    cases h
    exact ⟨_, rfl, rfl⟩
  · rw [if_neg hg] at h
    cases h

/-- Timestamp-stability for `app.py` departure rows. -/
theorem appNormalizeDeparture_stable (now now2 : String) (r : RawRecord) (row2 : AppDepartureRow)
    (h : appNormalizeDeparture now2 r = some row2) :
    ∃ row1, appNormalizeDeparture now r = some row1 ∧
      appDepartureKey row1 = appDepartureKey row2 := by
  unfold appNormalizeDeparture at h ⊢
  by_cases hg : (truthyStr r.flight_iata && truthyStr r.dep_time) = true
  · rw [if_pos hg] at h ⊢
    cases h
    exact ⟨_, rfl, rfl⟩
  · rw [if_neg hg] at h
    cases h

/-- C1: Upsert idempotence.  Running any of the four save functions twice
on an identical record set leaves the store exactly as after the first
call (even when the second call carries a different collection
timestamp): the second call reports 0 rows inserted (`main.py` returns
the integer 0, `app.py` the message string embedding 0), and a row whose
natural key is already stored is silently skipped by `INSERT OR IGNORE`,
never overwriting the existing row (final conjunct). -/
theorem upsert_idempotent (now now2 : String) (records : List RawRecord)
    (db : MainDB) (adb : AppDB) :
    (save_arrivals now2 records (save_arrivals now records db).1).1
        = (save_arrivals now records db).1 ∧
    (save_arrivals now2 records (save_arrivals now records db).1).2 = 0 ∧
    (save_departures now2 records (save_departures now records db).1).1
        = (save_departures now records db).1 ∧
    (save_departures now2 records (save_departures now records db).1).2 = 0 ∧
    (appSaveArrivals now2 records (appSaveArrivals now records adb).1).1
        = (appSaveArrivals now records adb).1 ∧
    (appSaveArrivals now2 records (appSaveArrivals now records adb).1).2
        = "Registros nuevos insertados en arrivals: 0" ∧
    (appSaveDepartures now2 records (appSaveDepartures now records adb).1).1
        = (appSaveDepartures now records adb).1 ∧
    (appSaveDepartures now2 records (appSaveDepartures now records adb).1).2
        = "Registros nuevos insertados en departures: 0" ∧
    (∀ (t : List ArrivalRow) (row : ArrivalRow),
      hasKey arrivalKey t (arrivalKey row) = true →
        insertOrIgnore arrivalKey t row = t) := by
  have hA := runUpsert_idem (normalizeArrival now) (normalizeArrival now2) arrivalKey
    (fun r row2 h => normalizeArrival_stable now now2 r row2 h) db.arrivals records
  have hD := runUpsert_idem (normalizeDeparture now) (normalizeDeparture now2) departureKey
    (fun r row2 h => normalizeDeparture_stable now now2 r row2 h) db.departures records
  have hAA := runUpsert_idem (appNormalizeArrival now) (appNormalizeArrival now2) appArrivalKey
    (fun r row2 h => appNormalizeArrival_stable now now2 r row2 h) adb.arrivals records
  have hAD := runUpsert_idem (appNormalizeDeparture now) (appNormalizeDeparture now2)
    appDepartureKey
    (fun r row2 h => appNormalizeDeparture_stable now now2 r row2 h) adb.departures records
  refine ⟨?_, ?_, ?_, ?_, ?_, ?_, ?_, ?_, ?_⟩
  · simp [save_arrivals, hA]
  · simp [save_arrivals, hA]
  · simp [save_departures, hD]
  · simp [save_departures, hD]
  · simp [appSaveArrivals, hAA]
  · simp [appSaveArrivals, hAA]
    rfl
  · simp [appSaveDepartures, hAD]
  · simp [appSaveDepartures, hAD]
    rfl
  · intro t row hk
    simp [insertOrIgnore, hk]

/-- C10: Table disjointness.  `save_arrivals` leaves the departures table
unchanged and only appends to the arrivals table, and symmetrically for
`save_departures`, in both revisions. -/
theorem table_disjointness (now : String) (records : List RawRecord)
    (db : MainDB) (adb : AppDB) :
    (save_arrivals now records db).1.departures = db.departures ∧
    (save_departures now records db).1.arrivals = db.arrivals ∧
    (appSaveArrivals now records adb).1.departures = adb.departures ∧
    (appSaveDepartures now records adb).1.arrivals = adb.arrivals ∧
    (∃ new, (save_arrivals now records db).1.arrivals = db.arrivals ++ new) ∧
    (∃ new, (save_departures now records db).1.departures = db.departures ++ new) ∧
    (∃ new, (appSaveArrivals now records adb).1.arrivals = adb.arrivals ++ new) ∧
    (∃ new, (appSaveDepartures now records adb).1.departures = adb.departures ++ new) := by
  refine ⟨rfl, rfl, rfl, rfl, ?_, ?_, ?_, ?_⟩
  · obtain ⟨new, h⟩ := runUpsert_append (normalizeArrival now) arrivalKey records db.arrivals
    exact ⟨new, h⟩
  · obtain ⟨new, h⟩ := runUpsert_append (normalizeDeparture now) departureKey records
      db.departures
    exact ⟨new, h⟩
  · obtain ⟨new, h⟩ := runUpsert_append (appNormalizeArrival now) appArrivalKey records
      adb.arrivals
    exact ⟨new, h⟩
  · obtain ⟨new, h⟩ := runUpsert_append (appNormalizeDeparture now) appDepartureKey records
      adb.departures
    exact ⟨new, h⟩

/-- Truncating division of a number at most -60 by 60 is negative. -/
theorem tdiv_sixty_neg (x : Int) (h : x ≤ -60) : Int.tdiv x 60 < 0 := by
  have h1 : (0 : Int) ≤ -x := by omega
  have h2 : Int.tdiv (-x) 60 = (-x) / 60 := Int.tdiv_eq_ediv h1 (by omega)
  have h4 : Int.tdiv x 60 = -Int.tdiv (-x) 60 := by
    rw [← Int.neg_tdiv, neg_neg]
  rw [h4, h2]
  omega

/-- C2 (amended): For parseable date-time strings, `calculate_delay`
returns the naive-clock difference (actual minus scheduled) in seconds,
truncated toward zero after division by 60; the timezone offset is
stripped without conversion (the naive fields alone decide the result).
The result is negative exactly when the actual time is at least one full
minute earlier than the scheduled time; a sub-minute early arrival
truncates to 0 (see the counterexample), and a result that is late stays
nonnegative — no clamping is applied anywhere. -/
theorem calculate_delay_truncates (a s : String) (da ds : PyDateTime)
    (ha : parseDateTime a = some da) (hs : parseDateTime s = some ds) :
    calculate_delay (some a) (some s)
        = some (Int.tdiv (naiveSeconds da - naiveSeconds ds) 60) ∧
    naiveSeconds (replaceTzNone da) = naiveSeconds da ∧
    (naiveSeconds da ≤ naiveSeconds ds - 60 →
      Int.tdiv (naiveSeconds da - naiveSeconds ds) 60 < 0) ∧
    (naiveSeconds ds ≤ naiveSeconds da →
      0 ≤ Int.tdiv (naiveSeconds da - naiveSeconds ds) 60) := by
  have hempty : parseDateTime "" = none := by decide
  have ha0 : a ≠ "" := by
    intro e
    rw [e, hempty] at ha
    cases ha
  have hs0 : s ≠ "" := by
    intro e
    rw [e, hempty] at hs
    cases hs
  refine ⟨?_, ?_, ?_, ?_⟩
  · unfold calculate_delay
    simp [truthyStr, ha0, hs0, ha, hs, replaceTzNone, naiveSeconds]
  · simp [replaceTzNone, naiveSeconds]
  · intro h
    exact tdiv_sixty_neg _ (by omega)
  · intro h
    exact Int.tdiv_nonneg (by omega) (by omega)

/-- C2 counterexample: an actual time 30 seconds earlier than the
scheduled time is strictly earlier on the naive clock, yet
`calculate_delay` returns 0, not a negative integer — refuting the
claim that any earlier actual time yields a negative result. -/
theorem calculate_delay_sub_minute_early_zero :
    (parseDateTime "2024-01-01 09:59:30" = some ⟨2024, 1, 1, 9, 59, 30, none⟩ ∧
     parseDateTime "2024-01-01 10:00:00" = some ⟨2024, 1, 1, 10, 0, 0, none⟩ ∧
     naiveSeconds ⟨2024, 1, 1, 9, 59, 30, none⟩ < naiveSeconds ⟨2024, 1, 1, 10, 0, 0, none⟩) ∧
    calculate_delay (some "2024-01-01 09:59:30") (some "2024-01-01 10:00:00") = some 0 := by
  exact ⟨⟨by decide, by decide, by decide⟩, by decide⟩

/-- C2 witness: the theorem applied to the offset-carrying pair of the
spec's worked example. -/
theorem calculate_delay_truncates_witness :
    calculate_delay (some "2024-01-01T10:15:00+01:00") (some "2024-01-01T10:00:00+01:00")
        = some (Int.tdiv
            (naiveSeconds ⟨2024, 1, 1, 10, 15, 0, some 3600⟩
              - naiveSeconds ⟨2024, 1, 1, 10, 0, 0, some 3600⟩) 60) :=
  (calculate_delay_truncates "2024-01-01T10:15:00+01:00" "2024-01-01T10:00:00+01:00"
    ⟨2024, 1, 1, 10, 15, 0, some 3600⟩ ⟨2024, 1, 1, 10, 0, 0, some 3600⟩
    (by decide) (by decide)).1

/-- C3: `calculate_delay` returns null exactly when an input is absent or
empty (Python-falsy) or fails to parse; being a total Lean function of
its two inputs, it raises nothing on any input. -/
theorem calculate_delay_none_iff (a s : Option String) :
    calculate_delay a s = none ↔
      (truthyStr a = false ∨ truthyStr s = false ∨
       parseDateTime (a.getD "") = none ∨ parseDateTime (s.getD "") = none) := by
  unfold calculate_delay
  cases h1 : truthyStr a
  · simp
  · cases h2 : truthyStr s
    · simp
    · simp only [Bool.true_eq_false, or_self, if_false, Bool.false_eq_true, false_or]
      cases hp : parseDateTime (a.getD "") <;> cases hq : parseDateTime (s.getD "") <;> simp

/-- C4: A record whose flight identifier or mandatory anchor time field
is falsy is discarded by normalization — it is not written, raises
nothing, and removing it from the batch changes neither the resulting
store nor the returned count, in all four save functions (`main.py`
arrivals anchor on `arr_time`, `main.py` departures on the resolved
scheduled time, `app.py` arrivals on `arr_time`, `app.py` departures on
`dep_time`). -/
theorem mandatory_field_discard (now : String) (r : RawRecord) :
    (truthyStr r.flight_iata = false ∨ truthyStr r.arr_time = false →
      normalizeArrival now r = none ∧
      ∀ l1 l2 db, save_arrivals now (l1 ++ r :: l2) db = save_arrivals now (l1 ++ l2) db) ∧
    (truthyStr r.flight_iata = false ∨ truthyStr (resolveDepSch r) = false →
      normalizeDeparture now r = none ∧
      ∀ l1 l2 db, save_departures now (l1 ++ r :: l2) db = save_departures now (l1 ++ l2) db) ∧
    (truthyStr r.flight_iata = false ∨ truthyStr r.arr_time = false →
      appNormalizeArrival now r = none ∧
      ∀ l1 l2 adb, appSaveArrivals now (l1 ++ r :: l2) adb = appSaveArrivals now (l1 ++ l2) adb) ∧
    (truthyStr r.flight_iata = false ∨ truthyStr r.dep_time = false →
      appNormalizeDeparture now r = none ∧
      ∀ l1 l2 adb,
        appSaveDepartures now (l1 ++ r :: l2) adb = appSaveDepartures now (l1 ++ l2) adb) := by
  refine ⟨fun h => ?_, fun h => ?_, fun h => ?_, fun h => ?_⟩
  · have hn : normalizeArrival now r = none := by
      unfold normalizeArrival
      rcases h with h | h <;> simp [h]
    refine ⟨hn, fun l1 l2 db => ?_⟩
    have hrw := runUpsert_skip (normalizeArrival now) arrivalKey r hn l1 l2 db.arrivals
    simp [save_arrivals, hrw]
  · have hn : normalizeDeparture now r = none := by
      unfold normalizeDeparture
      rcases h with h | h <;> simp [h]
    refine ⟨hn, fun l1 l2 db => ?_⟩
    have hrw := runUpsert_skip (normalizeDeparture now) departureKey r hn l1 l2 db.departures
    simp [save_departures, hrw]
  · have hn : appNormalizeArrival now r = none := by
      unfold appNormalizeArrival
      rcases h with h | h <;> simp [h]
    refine ⟨hn, fun l1 l2 adb => ?_⟩
    have hrw := runUpsert_skip (appNormalizeArrival now) appArrivalKey r hn l1 l2 adb.arrivals
    simp [appSaveArrivals, hrw]
  · have hn : appNormalizeDeparture now r = none := by
      unfold appNormalizeDeparture
      rcases h with h | h <;> simp [h]
    refine ⟨hn, fun l1 l2 adb => ?_⟩
    have hrw := runUpsert_skip (appNormalizeDeparture now) appDepartureKey r hn l1 l2
      adb.departures
    simp [appSaveDepartures, hrw]

/-- C4 witness: a record with times but no flight identifier is discarded
by all four save functions on a singleton batch against an empty store. -/
theorem mandatory_field_discard_witness :
    truthyStr ({ arr_time := some "2024-03-01 09:05:00",
                 dep_time := some "2024-03-01 09:05:00",
                 dep_time_sch := some "2024-03-01 09:00:00" } : RawRecord).flight_iata
        = false ∧
    normalizeArrival "2024-03-01 12:00:00"
        { arr_time := some "2024-03-01 09:05:00",
          dep_time := some "2024-03-01 09:05:00",
          dep_time_sch := some "2024-03-01 09:00:00" } = none ∧
    save_arrivals "2024-03-01 12:00:00"
        ([] ++ ({ arr_time := some "2024-03-01 09:05:00",
                  dep_time := some "2024-03-01 09:05:00",
                  dep_time_sch := some "2024-03-01 09:00:00" } : RawRecord) :: []) ⟨[], []⟩
      = save_arrivals "2024-03-01 12:00:00" ([] ++ []) ⟨[], []⟩ ∧
    normalizeDeparture "2024-03-01 12:00:00"
        { arr_time := some "2024-03-01 09:05:00",
          dep_time := some "2024-03-01 09:05:00",
          dep_time_sch := some "2024-03-01 09:00:00" } = none := by
  refine ⟨by decide, ?_, ?_, ?_⟩
  · exact ((mandatory_field_discard "2024-03-01 12:00:00" _).1 (Or.inl (by decide))).1
  · exact ((mandatory_field_discard "2024-03-01 12:00:00" _).1 (Or.inl (by decide))).2 [] []
      ⟨[], []⟩
  · exact ((mandatory_field_discard "2024-03-01 12:00:00" _).2.1 (Or.inl (by decide))).1

/-- Inserting a single normalized departure record whose key is not yet
stored appends exactly that row and reports one inserted row. -/
theorem save_departures_insert_fresh (now : String) (r : RawRecord) (db : MainDB)
    (row : DepartureRow) (hnorm : normalizeDeparture now r = some row)
    (hfresh : hasKey departureKey db.departures (departureKey row) = false) :
    (save_departures now [r] db).1.departures = db.departures ++ [row] ∧
    (save_departures now [r] db).2 = 1 := by
  have hrw : runUpsert (normalizeDeparture now) departureKey db.departures [r]
      = db.departures ++ [row] := by
    show saveStep (normalizeDeparture now) departureKey db.departures r = _
    unfold saveStep
    rw [hnorm]
    simp [insertOrIgnore, hfresh]
  constructor
  · rw [save_departures, hrw]
  · simp only [save_departures, hrw, List.length_append, List.length_cons, List.length_nil]
    push_cast
    omega

/-- C5 (amended): A departure record with a flight identifier and a
resolved scheduled time but no actual departure time is kept by the
`main.py` normalizer — inserted (when its key is fresh) with a null delay
and a null actual time — but the `app.py` revision discards such a
record, because its guard requires `dep_time` instead of the resolved
scheduled time. -/
theorem departure_retention_by_revision (now : String) (r : RawRecord)
    (db : MainDB) (adb : AppDB) :
    (truthyStr r.flight_iata = true → truthyStr (resolveDepSch r) = true →
     truthyStr r.dep_time = false →
      ∃ row, normalizeDeparture now r = some row ∧
        row.delay_minutes = none ∧ row.dep_time = r.dep_time ∧
        (hasKey departureKey db.departures (departureKey row) = false →
          (save_departures now [r] db).1.departures = db.departures ++ [row] ∧
          (save_departures now [r] db).2 = 1)) ∧
    (truthyStr r.dep_time = false →
      appNormalizeDeparture now r = none ∧
      appSaveDepartures now [r] adb
        = (adb, "Registros nuevos insertados en departures: 0")) := by
  constructor
  · intro hf hs hd
    have gd : (truthyStr r.flight_iata && truthyStr (resolveDepSch r)) = true := by
      rw [hf, hs]
      rfl
    have hnorm : normalizeDeparture now r
        = some
          { timestamp := now
            flight_iata := r.flight_iata.getD ""
            airline_iata := r.airline_iata
            dep_iata := r.dep_iata
            arr_iata := r.arr_iata
            dep_sch_time := (resolveDepSch r).getD ""
            dep_time := r.dep_time
            status := r.status
            delay_minutes := calculate_delay r.dep_time (resolveDepSch r)
            dep_terminal := r.dep_terminal
            dep_gate := r.dep_gate
            duration := r.duration
            dep_delayed := r.dep_delayed
            arr_delayed := r.arr_delayed
            aircraft_icao := r.aircraft_icao } := by
      unfold normalizeDeparture
      rw [if_pos gd]
    have hdelay : calculate_delay r.dep_time (resolveDepSch r) = none := by
      unfold calculate_delay
      rw [hd]
      rfl
    exact ⟨_, hnorm, hdelay, rfl,
      fun hfresh => save_departures_insert_fresh now r db _ hnorm hfresh⟩
  · intro hd
    have hn : appNormalizeDeparture now r = none := by
      unfold appNormalizeDeparture
      rw [hd]
      simp
    have hrw : runUpsert (appNormalizeDeparture now) appDepartureKey adb.departures [r]
        = adb.departures := by
      show saveStep (appNormalizeDeparture now) appDepartureKey adb.departures r = _
      exact saveStep_none _ _ _ _ hn
    refine ⟨hn, ?_⟩
    rw [appSaveDepartures, hrw]
    rw [Int.sub_self]
    rfl

/-- C5 counterexample: a departure record with flight identifier
`IB1234` and scheduled time but no actual departure time satisfies the
claim's premise, yet the `app.py` saver inserts nothing — the record is
discarded, not kept with a null delay. -/
theorem departure_without_dep_time_discarded_in_app :
    truthyStr ({ flight_iata := some "IB1234",
                 dep_time_sch := some "2024-03-01 09:00:00" } : RawRecord).flight_iata = true ∧
    truthyStr (resolveDepSch { flight_iata := some "IB1234",
                               dep_time_sch := some "2024-03-01 09:00:00" }) = true ∧
    truthyStr ({ flight_iata := some "IB1234",
                 dep_time_sch := some "2024-03-01 09:00:00" } : RawRecord).dep_time = false ∧
    (appSaveDepartures "2024-03-01 12:00:00"
        [{ flight_iata := some "IB1234",
           dep_time_sch := some "2024-03-01 09:00:00" }] ⟨[], []⟩).1.departures = [] := by
  exact ⟨by decide, by decide, by decide, by decide⟩

/-- C5 witness: the amended theorem applied to a concrete record with
flight identifier and scheduled time but no actual departure time. -/
theorem departure_retention_witness :
    ∃ row, normalizeDeparture "2024-03-01 12:00:00"
        { flight_iata := some "IB1234", dep_time_sch := some "2024-03-01 09:00:00" }
          = some row ∧
      row.delay_minutes = none ∧
      row.dep_time = ({ flight_iata := some "IB1234",
                        dep_time_sch := some "2024-03-01 09:00:00" } : RawRecord).dep_time ∧
      (hasKey departureKey ([] : List DepartureRow) (departureKey row) = false →
        (save_departures "2024-03-01 12:00:00"
            [{ flight_iata := some "IB1234",
               dep_time_sch := some "2024-03-01 09:00:00" }] ⟨[], []⟩).1.departures
          = [] ++ [row] ∧
        (save_departures "2024-03-01 12:00:00"
            [{ flight_iata := some "IB1234",
               dep_time_sch := some "2024-03-01 09:00:00" }] ⟨[], []⟩).2 = 1) :=
  (departure_retention_by_revision "2024-03-01 12:00:00"
    { flight_iata := some "IB1234", dep_time_sch := some "2024-03-01 09:00:00" }
    ⟨[], []⟩ ⟨[], []⟩).1 (by decide) (by decide) (by decide)

/-- C8 (amended): Every save call appends exactly the rows it newly
inserts and reports their number — never the input batch size, so
skipped duplicates and discarded records are excluded.  The `main.py`
functions return that count as an integer; the `app.py` functions return
a message string embedding the same count rather than the number
itself. -/
theorem upsert_count_semantics (now : String) (records : List RawRecord)
    (db : MainDB) (adb : AppDB) :
    (∃ new, (save_arrivals now records db).1.arrivals = db.arrivals ++ new ∧
      (save_arrivals now records db).2 = (new.length : Int) ∧
      new.length ≤ records.length) ∧
    (∃ new, (save_departures now records db).1.departures = db.departures ++ new ∧
      (save_departures now records db).2 = (new.length : Int) ∧
      new.length ≤ records.length) ∧
    (∃ new, (appSaveArrivals now records adb).1.arrivals = adb.arrivals ++ new ∧
      (appSaveArrivals now records adb).2
        = "Registros nuevos insertados en arrivals: " ++ toString ((new.length : Nat) : Int) ∧
      new.length ≤ records.length) ∧
    (∃ new, (appSaveDepartures now records adb).1.departures = adb.departures ++ new ∧
      (appSaveDepartures now records adb).2
        = "Registros nuevos insertados en departures: " ++ toString ((new.length : Nat) : Int) ∧
      new.length ≤ records.length) := by
  refine ⟨?_, ?_, ?_, ?_⟩
  · obtain ⟨new, happ, hcnt, hle⟩ :=
      runUpsert_count (normalizeArrival now) arrivalKey db.arrivals records
    exact ⟨new, happ, by simp only [save_arrivals]; rw [← hcnt], hle⟩
  · obtain ⟨new, happ, hcnt, hle⟩ :=
      runUpsert_count (normalizeDeparture now) departureKey db.departures records
    exact ⟨new, happ, by simp only [save_departures]; rw [← hcnt], hle⟩
  · obtain ⟨new, happ, hcnt, hle⟩ :=
      runUpsert_count (appNormalizeArrival now) appArrivalKey adb.arrivals records
    exact ⟨new, happ, by simp only [appSaveArrivals]; rw [← hcnt], hle⟩
  · obtain ⟨new, happ, hcnt, hle⟩ :=
      runUpsert_count (appNormalizeDeparture now) appDepartureKey adb.departures records
    exact ⟨new, happ, by simp only [appSaveDepartures]; rw [← hcnt], hle⟩

/-- C8 counterexample: the `app.py` revision's `save_arrivals` does not
return the number of inserted rows but a message string embedding it —
on an empty batch the return value is the full sentence, not (a
rendering of) the count 0. -/
theorem app_save_returns_message_string :
    (appSaveArrivals "2024-03-01 12:00:00" [] ⟨[], []⟩).2
        = "Registros nuevos insertados en arrivals: 0" ∧
    (appSaveArrivals "2024-03-01 12:00:00" [] ⟨[], []⟩).2 ≠ toString (0 : Int) := by
  exact ⟨by decide, by decide⟩

/-- C6 (amended): On a well-formed 2xx response with no application-level
error field, both clients return the result list unchanged — in
particular an empty list is returned as an empty sequence, not an error.
When the `response` field is absent, however, the claim fails: the
`main.py` client returns the Python `None` it got from `data.get`
(falsy, treated as empty by its callers, but not an empty sequence), and
the `app.py` client evaluates `data["response"]` and lets an uncaught
`KeyError` escape. -/
theorem empty_or_absent_response_behavior (apiKey : String) (d : ApiData)
    (v : Option (List RawRecord)) :
    (apiKey ≠ placeholderKey → d.error = none → d.response = some v →
      airlabs_request apiKey (HttpResult.ok d) = Except.ok v) ∧
    (apiKey ≠ placeholderKey → d.error = none → d.response = none →
      airlabs_request apiKey (HttpResult.ok d) = Except.ok none) ∧
    (d.error = none → d.response = some v →
      appAirlabsRequest apiKey (HttpResult.ok d) = Outcome.ok v) ∧
    (d.error = none → d.response = none →
      appAirlabsRequest apiKey (HttpResult.ok d) = Outcome.uncaught "KeyError: response") := by
  refine ⟨fun hk he hr => ?_, fun hk he hr => ?_, fun he hr => ?_, fun he hr => ?_⟩
  · unfold airlabs_request
    rw [if_neg hk]
    simp [he, hr]
  · unfold airlabs_request
    rw [if_neg hk]
    simp [he, hr]
  · unfold appAirlabsRequest
    simp [he, hr]
  · unfold appAirlabsRequest
    simp [he, hr]

/-- C6 counterexample: a successful response that carries no error field
and no `response` key makes the `app.py` fetch raise an uncaught
`KeyError` instead of returning an empty sequence, and makes the
`main.py` fetch return Python `None` rather than an empty list. -/
theorem absent_response_not_empty_sequence :
    appAirlabsRequest "anykey" (HttpResult.ok { error := none, response := none })
        = Outcome.uncaught "KeyError: response" ∧
    appAirlabsRequest "anykey" (HttpResult.ok { error := none, response := none })
        ≠ Outcome.ok (some []) ∧
    airlabs_request "anykey" (HttpResult.ok { error := none, response := none })
        = Except.ok none ∧
    airlabs_request "anykey" (HttpResult.ok { error := none, response := none })
        ≠ Except.ok (some []) := by
  have hmain : airlabs_request "anykey" (HttpResult.ok { error := none, response := none })
      = Except.ok none := by rfl
  refine ⟨by decide, by decide, hmain, ?_⟩
  rw [hmain]
  simp

/-- C6 witness: the amended theorem applied to a present-and-empty result
list and to an absent result field. -/
theorem empty_or_absent_response_witness :
    airlabs_request "k" (HttpResult.ok { error := none, response := some (some []) })
        = Except.ok (some []) ∧
    appAirlabsRequest "k" (HttpResult.ok { error := none, response := none })
        = Outcome.uncaught "KeyError: response" :=
  ⟨(empty_or_absent_response_behavior "k" { error := none, response := some (some []) }
      (some [])).1 (by decide) rfl rfl,
   (empty_or_absent_response_behavior "k" { error := none, response := none }
      (some [])).2.2.2 rfl rfl⟩

/-- Appending strings concatenates their character data. -/
theorem string_data_append (a b : String) : (a ++ b).data = a.data ++ b.data := by
  cases a
  cases b
  rfl

/-- The configuration-error message differs from every transport-error
message (the two are distinguishable by operators, as both are raised as
`RuntimeError` and differ only in text). -/
theorem configError_ne_transport (m : String) :
    apiKeyConfigError ≠ transportErrText ++ m := by
  intro h
  have h1 : apiKeyConfigError.data.head? = (transportErrText ++ m).data.head? := by rw [h]
  rw [string_data_append] at h1
  have hp : transportErrText.data = 'E' :: "rror en la petición HTTP: ".data := by decide
  rw [hp, List.cons_append] at h1
  have hl : apiKeyConfigError.data.head? = some 'A' := by decide
  rw [hl] at h1
  simp only [List.head?] at h1
  exact absurd h1 (by decide)

/-- C9 (amended): In `src/main.py`, a missing environment credential
resolves to the placeholder value, and any request issued with the
placeholder credential fails with the configuration error regardless of
what the network would have answered (hence before or instead of
contacting the upstream API); that error message is distinct from every
transport-failure message.  In `src/app.py` there is no credential
check: a missing environment credential silently falls back to a
hardcoded key and the request proceeds normally. -/
theorem credential_check_by_revision (env : Option String) (h h2 : HttpResult)
    (m : String) (d : ApiData) (v : Option (List RawRecord)) :
    (env = none ∨ env = some placeholderKey →
      airlabs_request (main_API_KEY env) h = Except.error apiKeyConfigError ∧
      airlabs_request (main_API_KEY env) h = airlabs_request (main_API_KEY env) h2) ∧
    apiKeyConfigError ≠ transportErrText ++ m ∧
    (d.error = none → d.response = some v →
      appAirlabsRequest (app_API_KEY none) (HttpResult.ok d) = Outcome.ok v) ∧
    appAirlabsRequest (app_API_KEY none) (HttpResult.transportFail m)
      = Outcome.runtimeError (transportErrText ++ m) := by
  refine ⟨fun henv => ?_, configError_ne_transport m, fun he hr => ?_, rfl⟩
  · have hk : main_API_KEY env = placeholderKey := by
      rcases henv with henv | henv <;> rw [henv] <;> rfl
    constructor
    · unfold airlabs_request
      rw [if_pos hk]
    · unfold airlabs_request
      rw [if_pos hk, if_pos hk]
  · unfold appAirlabsRequest
    simp [he, hr]

/-- C9 counterexample: with the environment credential missing, the
`app.py` client does not fail fast with a configuration error — it
contacts the upstream with its hardcoded key and returns the response
normally. -/
theorem app_missing_credential_no_fail_fast :
    app_API_KEY none ≠ placeholderKey ∧
    appAirlabsRequest (app_API_KEY none)
        (HttpResult.ok { error := none, response := some (some []) })
      = Outcome.ok (some []) ∧
    appAirlabsRequest (app_API_KEY none)
        (HttpResult.ok { error := none, response := some (some []) })
      ≠ Outcome.runtimeError apiKeyConfigError := by
  exact ⟨by decide, by decide, by decide⟩

/-- C9 witness: the amended theorem applied with an unset environment
variable, a concrete transport outcome and a concrete success body. -/
theorem credential_check_witness :
    airlabs_request (main_API_KEY none) (HttpResult.transportFail "timeout")
        = Except.error apiKeyConfigError ∧
    appAirlabsRequest (app_API_KEY none)
        (HttpResult.ok { error := none, response := some (some []) })
      = Outcome.ok (some []) :=
  ⟨((credential_check_by_revision none (HttpResult.transportFail "timeout")
      (HttpResult.transportFail "timeout") "x"
      { error := none, response := some (some []) } (some [])).1 (Or.inl rfl)).1,
   (credential_check_by_revision none (HttpResult.transportFail "timeout")
      (HttpResult.transportFail "timeout") "x"
      { error := none, response := some (some []) } (some [])).2.2.1 rfl rfl⟩

/-- C7 (amended): If the fetch for one status filter raises a
`RuntimeError` (transport or upstream error) while the other filter
succeeds with a non-empty record list, both orchestrators isolate the
failure: in `main.py`'s `recolectar` the error is recorded under the
failing filter's report key, the other filter's save still runs to
completion with its inserted count reported under its key, and the cycle
— a total function — completes without raising; in `app.py`'s
`recolectar_data` the same isolation holds, but the failure is captured
into that filter's labeled segment of the single consolidated response
message (returned with HTTP 200) rather than under a per-filter report
key, with the other filter's save message — embedding its inserted
count — included alongside. -/
theorem per_filter_failure_isolation (apiKey now1 now2 : String)
    (hL hA : HttpResult) (db : MainDB) (adb : AppDB) (e : String) (l : List RawRecord) :
    (airlabs_request apiKey hL = Except.error e →
     airlabs_request apiKey hA = Except.ok (some l) → l ≠ [] →
      (recolectar apiKey now1 now2 hL hA db).1.error_llegadas
          = some ("Error en recolección de llegadas: " ++ e) ∧
      (recolectar apiKey now1 now2 hL hA db).1.nuevos_registros_llegadas = none ∧
      (recolectar apiKey now1 now2 hL hA db).1.nuevos_registros_salidas_activas
          = some ((save_departures now2 l db).2) ∧
      (recolectar apiKey now1 now2 hL hA db).1.error_salidas_activas = none ∧
      (recolectar apiKey now1 now2 hL hA db).2 = (save_departures now2 l db).1) ∧
    (airlabs_request apiKey hL = Except.ok (some l) → l ≠ [] →
     airlabs_request apiKey hA = Except.error e →
      (recolectar apiKey now1 now2 hL hA db).1.nuevos_registros_llegadas
          = some ((save_arrivals now1 l db).2) ∧
      (recolectar apiKey now1 now2 hL hA db).1.error_llegadas = none ∧
      (recolectar apiKey now1 now2 hL hA db).1.error_salidas_activas
          = some ("Error en recolección de salidas activas: " ++ e) ∧
      (recolectar apiKey now1 now2 hL hA db).1.nuevos_registros_salidas_activas = none ∧
      (recolectar apiKey now1 now2 hL hA db).2 = (save_arrivals now1 l db).1) ∧
    (appAirlabsRequest apiKey hL = Outcome.runtimeError e →
     appAirlabsRequest apiKey hA = Outcome.ok (some l) → l ≠ [] →
      appRecolectarData apiKey now1 now2 hL hA adb
        = (Outcome.ok (appResponseMsg ("ERROR LLEGADAS: " ++ e)
            (appSaveDepartures now2 l adb).2, 200),
           (appSaveDepartures now2 l adb).1)) ∧
    (appAirlabsRequest apiKey hL = Outcome.ok (some l) → l ≠ [] →
     appAirlabsRequest apiKey hA = Outcome.runtimeError e →
      appRecolectarData apiKey now1 now2 hL hA adb
        = (Outcome.ok (appResponseMsg (appSaveArrivals now1 l adb).2
            ("ERROR DESPEGUES: " ++ e), 200),
           (appSaveArrivals now1 l adb).1)) := by
  refine ⟨?_, ?_, ?_, ?_⟩
  · intro hLe hAe hl
    have hne : l.isEmpty = false := by
      cases l
      · exact absurd rfl hl
      · rfl
    refine ⟨?_, ?_, ?_, ?_, ?_⟩ <;> simp [recolectar, hLe, hAe, hne]
  · intro hLe hl hAe
    have hne : l.isEmpty = false := by
      cases l
      · exact absurd rfl hl
      · rfl
    refine ⟨?_, ?_, ?_, ?_, ?_⟩ <;> simp [recolectar, hLe, hAe, hne]
  · intro hLe hAe hl
    have hne : l.isEmpty = false := by
      cases l
      · exact absurd rfl hl
      · rfl
    simp [appRecolectarData, appRecolectarTail, hLe, hAe, hne]
  · intro hLe hl hAe
    have hne : l.isEmpty = false := by
      cases l
      · exact absurd rfl hl
      · rfl
    simp [appRecolectarData, appRecolectarTail, hLe, hAe, hne]

/-- C7 counterexample: in the `app.py` revision a failing `landed` fetch
is not recorded in the report under that filter's key — the cycle's
whole report is one consolidated message string returned with HTTP 200,
with the error text embedded in its LLEGADAS segment and the other
filter's count message in its DESPEGUES segment; there are no per-filter
keyed entries to record the failure under. -/
theorem app_cycle_failure_in_message_not_keyed :
    (appRecolectarData "k" "t1" "t2" (HttpResult.transportFail "down")
        (HttpResult.ok
          { error := none,
            response := some (some [{ flight_iata := some "IB1234",
                                      dep_time_sch := some "2024-03-01 09:00:00",
                                      dep_time := some "2024-03-01 09:05:00" }]) })
        ⟨[], []⟩).1
      = Outcome.ok ("Tarea de recolección completada: LLEGADAS: ERROR LLEGADAS: Error en la petición HTTP: down. DESPEGUES: Registros nuevos insertados en departures: 1.", 200) := by
  decide

/-- C7 witness: the theorem applied to a cycle whose `landed` fetch fails
on transport while the other filter succeeds with one valid record, in
both revisions. -/
theorem per_filter_failure_isolation_witness :
    (recolectar "k" "t1" "t2" (HttpResult.transportFail "down")
        (HttpResult.ok
          { error := none,
            response := some (some [{ flight_iata := some "IB1234",
                                      dep_time_sch := some "2024-03-01 09:00:00",
                                      dep_time := some "2024-03-01 09:05:00" }]) })
        ⟨[], []⟩).1.error_llegadas
      = some ("Error en recolección de llegadas: Error en la petición HTTP: down") ∧
    (recolectar "k" "t1" "t2" (HttpResult.transportFail "down")
        (HttpResult.ok
          { error := none,
            response := some (some [{ flight_iata := some "IB1234",
                                      dep_time_sch := some "2024-03-01 09:00:00",
                                      dep_time := some "2024-03-01 09:05:00" }]) })
        ⟨[], []⟩).1.nuevos_registros_salidas_activas
      = some ((save_departures "t2"
          [{ flight_iata := some "IB1234",
             dep_time_sch := some "2024-03-01 09:00:00",
             dep_time := some "2024-03-01 09:05:00" }] ⟨[], []⟩).2) ∧
    appRecolectarData "k" "t1" "t2" (HttpResult.transportFail "down")
        (HttpResult.ok
          { error := none,
            response := some (some [{ flight_iata := some "IB1234",
                                      dep_time_sch := some "2024-03-01 09:00:00",
                                      dep_time := some "2024-03-01 09:05:00" }]) })
        ⟨[], []⟩
      = (Outcome.ok (appResponseMsg
            ("ERROR LLEGADAS: " ++ "Error en la petición HTTP: down")
            ((appSaveDepartures "t2"
              [{ flight_iata := some "IB1234",
                 dep_time_sch := some "2024-03-01 09:00:00",
                 dep_time := some "2024-03-01 09:05:00" }] ⟨[], []⟩).2), 200),
         (appSaveDepartures "t2"
            [{ flight_iata := some "IB1234",
               dep_time_sch := some "2024-03-01 09:00:00",
               dep_time := some "2024-03-01 09:05:00" }] ⟨[], []⟩).1) :=
  ⟨((per_filter_failure_isolation "k" "t1" "t2" (HttpResult.transportFail "down")
      (HttpResult.ok
        { error := none,
          response := some (some [{ flight_iata := some "IB1234",
                                    dep_time_sch := some "2024-03-01 09:00:00",
                                    dep_time := some "2024-03-01 09:05:00" }]) })
      ⟨[], []⟩ ⟨[], []⟩ "Error en la petición HTTP: down"
      [{ flight_iata := some "IB1234",
         dep_time_sch := some "2024-03-01 09:00:00",
         dep_time := some "2024-03-01 09:05:00" }]).1 (by rfl) (by rfl) (by decide)).1,
   ((per_filter_failure_isolation "k" "t1" "t2" (HttpResult.transportFail "down")
      (HttpResult.ok
        { error := none,
          response := some (some [{ flight_iata := some "IB1234",
                                    dep_time_sch := some "2024-03-01 09:00:00",
                                    dep_time := some "2024-03-01 09:05:00" }]) })
      ⟨[], []⟩ ⟨[], []⟩ "Error en la petición HTTP: down"
      [{ flight_iata := some "IB1234",
         dep_time_sch := some "2024-03-01 09:00:00",
         dep_time := some "2024-03-01 09:05:00" }]).1 (by rfl) (by rfl) (by decide)).2.2.1,
   (per_filter_failure_isolation "k" "t1" "t2" (HttpResult.transportFail "down")
      (HttpResult.ok
        { error := none,
          response := some (some [{ flight_iata := some "IB1234",
                                    dep_time_sch := some "2024-03-01 09:00:00",
                                    dep_time := some "2024-03-01 09:05:00" }]) })
      ⟨[], []⟩ ⟨[], []⟩ "Error en la petición HTTP: down"
      [{ flight_iata := some "IB1234",
         dep_time_sch := some "2024-03-01 09:00:00",
         dep_time := some "2024-03-01 09:05:00" }]).2.2.1 (by rfl) (by rfl) (by decide)⟩

end Airlabs
